import Mathlib

/-!
# Verification of the notification-dispatch core (`interfaces/interface.go`)

A shallow embedding of the Go notification system: three concrete backends
(`EmailNotificador`, `SMSNotificador`, `SlackNotificador`), their validation,
tracking and statistics operations, and the dispatcher
(`ServicioNotificaciones`) with its broadcast operations `EnviarATodos` and
`EnviarConValidacion`.

Modelling conventions:
* Go's `map[string]*RegistroNotificacion` record stores become association
  lists `List (String × RegistroNotificacion)`; Go map assignment `m[k] = v`
  becomes `mapInsert` (replace-or-append), which preserves key uniqueness.
* The time-dependent nondeterminism of a delivery attempt (the generated id
  `fmt.Sprintf("email_%d", time.Now().UnixNano())` and the probabilistic
  failure branch `time.Now().UnixNano()%10 == 0`) is made explicit: each
  send step consumes an oracle entry `(id, fail) : String × Bool` from an
  environment list, one entry per registered backend in registration order.
* `error` return values become `Option String` (`none` = nil = success);
  the pair-returning `ObtenerEstado` becomes `Except String String`.
* Logging is purely observational (writes to stdout) and is omitted from the
  state; `time.Sleep` has no observable effect and is omitted.
-/

/-- `TipoNotificacion` — the channel enumeration (`email`, `sms`, `push`, `slack`). -/
inductive TipoNotificacion where
  | email
  | sms
  | push
  | slack
deriving DecidableEq, Repr

/-- `EstadoNotificacion` — the delivery-state enumeration
(`Pendiente`, `Enviada`, `Fallida`, `Entregada`). -/
inductive EstadoNotificacion where
  | pendiente
  | enviada
  | fallida
  | entregada
deriving DecidableEq, Repr

/-- The string value of each state constant (`"pendiente"`, `"enviada"`, ...),
as returned by `string(registro.Estado)` in `ObtenerEstado`. -/
def EstadoNotificacion.toStr : EstadoNotificacion → String
  | .pendiente => "pendiente"
  | .enviada => "enviada"
  | .fallida => "fallida"
  | .entregada => "entregada"

/-- `RegistroNotificacion` — one delivery record.  The Go `Timestamp` field
(an opaque creation time, immutable and never inspected by any operation)
is omitted. -/
structure RegistroNotificacion where
  id : String
  tipo : TipoNotificacion
  destinatario : String
  mensaje : String
  estado : EstadoNotificacion
  intentos : Nat
  error : String
deriving DecidableEq, Repr

/-- `ConfiguracionNotificacion` — backend-private configuration struct. -/
structure ConfiguracionNotificacion where
  maxIntentos : Nat
  timeoutSegundos : Nat
  reintentoAuto : Bool
deriving DecidableEq, Repr

/-- A record store: Go's `map[string]*RegistroNotificacion`, as an
association list keyed by record id. -/
abbrev RegistroStore := List (String × RegistroNotificacion)

/-- Go map assignment `m[k] = v`: replace the entry for `k` if present,
otherwise append a new entry. -/
def mapInsert {α : Type} (m : List (String × α)) (k : String) (v : α) :
    List (String × α) :=
  if m.any (fun p => p.1 = k) then
    m.map (fun p => if p.1 = k then (k, v) else p)
  else
    m ++ [(k, v)]

/-- Go map lookup `m[k]` (with `ok` flag): the value at the first entry whose
key is `k`, if any. -/
def mapLookup {α : Type} (k : String) : List (String × α) → Option α
  | [] => none
  | p :: ps => if p.1 = k then some p.2 else mapLookup k ps

/-- `EmailNotificador` — the email backend: SMTP configuration plus its
record store. -/
structure EmailNotificador where
  servidor : String
  puerto : Nat
  usuario : String
  password : String
  configuracion : ConfiguracionNotificacion
  registros : RegistroStore
deriving DecidableEq, Repr

/-- `NuevoEmailNotificador` — constructor with default configuration and an
empty record store. -/
def NuevoEmailNotificador (servidor : String) (puerto : Nat)
    (usuario password : String) : EmailNotificador :=
  { servidor := servidor
    puerto := puerto
    usuario := usuario
    password := password
    configuracion :=
      { maxIntentos := 3, timeoutSegundos := 30, reintentoAuto := true }
    registros := [] }

/-- `EmailNotificador.ValidarMensaje`: the message must be non-empty and at
most 1000 characters.  Returns `some errorMessage` on failure, `none` (nil)
on success. -/
def EmailNotificador.ValidarMensaje (_e : EmailNotificador) (mensaje : String) :
    Option String :=
  if mensaje.length = 0 then
    some "mensaje no puede estar vacío"
  else if mensaje.length > 1000 then
    some "mensaje muy largo (máximo 1000 caracteres)"
  else
    none

/-- `EmailNotificador.ValidarDestinatario`: the destination must contain
both a `@` and a `.` character (`strings.Contains` with the one-character
patterns `"@"` and `"."`, expressed over the character list). -/
def EmailNotificador.ValidarDestinatario (_e : EmailNotificador)
    (destinatario : String) : Option String :=
  if !(destinatario.data.any fun a => a = '@') then
    some "email inválido: debe contener @"
  else if !(destinatario.data.any fun a => a = '.') then
    some "email inválido: debe contener dominio"
  else
    none

/-- The pending record created by `EmailNotificador.EnviarNotificacion`
before the simulated delivery. -/
def EmailNotificador.registroInicial (id destinatario mensaje : String) :
    RegistroNotificacion :=
  { id := id
    tipo := .email
    destinatario := destinatario
    mensaje := mensaje
    estado := .pendiente
    intentos := 1
    error := "" }

/-- The record as it stands when `EmailNotificador.EnviarNotificacion`
returns: the pending record mutated (through its pointer) to its terminal
state, `Fallida` with `lastError` set on the simulated failure branch,
`Enviada` otherwise. -/
def EmailNotificador.registroFinal (id destinatario mensaje : String)
    (fail : Bool) : RegistroNotificacion :=
  if fail then
    { EmailNotificador.registroInicial id destinatario mensaje with
        estado := .fallida, error := "Servidor SMTP no disponible" }
  else
    { EmailNotificador.registroInicial id destinatario mensaje with
        estado := .enviada }

/-- `EmailNotificador.EnviarNotificacion`: validate destination, then
message; on success create a pending record under the generated `id`,
simulate the delivery (the oracle bit `fail` standing for
`time.Now().UnixNano()%10 == 0`), mutate the record to its terminal state
and return nil, or the error `"fallo al enviar email"` on failure. -/
def EmailNotificador.EnviarNotificacion (e : EmailNotificador)
    (destinatario mensaje : String) (id : String) (fail : Bool) :
    EmailNotificador × Option String :=
  match e.ValidarDestinatario destinatario with
  | some err => (e, some err)
  | none =>
    match e.ValidarMensaje mensaje with
    | some err => (e, some err)
    | none =>
      let registro := EmailNotificador.registroFinal id destinatario mensaje fail
      ({ e with registros := mapInsert e.registros id registro },
       if fail then some "fallo al enviar email" else none)

/-- `EmailNotificador.ObtenerEstado`: look the id up in the record store and
return the record's state as a string, or the error
`"notificación no encontrada"`. -/
def EmailNotificador.ObtenerEstado (e : EmailNotificador) (id : String) :
    Except String String :=
  match mapLookup id e.registros with
  | some registro => .ok registro.estado.toStr
  | none => .error "notificación no encontrada"

/-- The loop body of `EmailNotificador.ObtenerEstadisticas`: increment
`"total"` and the counter matching the record's state. -/
def pasoEstadisticaEmail (stats : List (String × Nat))
    (p : String × RegistroNotificacion) : List (String × Nat) :=
  let stats := mapInsert stats "total" ((mapLookup "total" stats).getD 0 + 1)
  match p.2.estado with
  | .enviada =>
      mapInsert stats "enviadas" ((mapLookup "enviadas" stats).getD 0 + 1)
  | .fallida =>
      mapInsert stats "fallidas" ((mapLookup "fallidas" stats).getD 0 + 1)
  | .pendiente =>
      mapInsert stats "pendientes" ((mapLookup "pendientes" stats).getD 0 + 1)
  | .entregada => stats

/-- `EmailNotificador.ObtenerEstadisticas`: start from the four zero
counters and scan the record store, incrementing `"total"` for every record
and the counter matching its state. -/
def EmailNotificador.ObtenerEstadisticas (e : EmailNotificador) :
    List (String × Nat) :=
  e.registros.foldl pasoEstadisticaEmail
    [("total", 0), ("enviadas", 0), ("fallidas", 0), ("pendientes", 0)]

/-- `SMSNotificador` — the SMS backend: provider configuration plus its
record store. -/
structure SMSNotificador where
  apiKey : String
  proveedor : String
  registros : RegistroStore
deriving DecidableEq, Repr

/-- `NuevoSMSNotificador` — constructor with an empty record store. -/
def NuevoSMSNotificador (apiKey proveedor : String) : SMSNotificador :=
  { apiKey := apiKey, proveedor := proveedor, registros := [] }

/-- `SMSNotificador.ValidarMensaje`: non-empty and at most 160 characters. -/
def SMSNotificador.ValidarMensaje (_s : SMSNotificador) (mensaje : String) :
    Option String :=
  if mensaje.length = 0 then
    some "mensaje SMS no puede estar vacío"
  else if mensaje.length > 160 then
    some "mensaje SMS muy largo (máximo 160 caracteres)"
  else
    none

/-- `SMSNotificador.ValidarDestinatario`: length at least 10 and starting
with `+` or `0`. -/
def SMSNotificador.ValidarDestinatario (_s : SMSNotificador)
    (destinatario : String) : Option String :=
  if destinatario.length < 10 then
    some "número de teléfono muy corto"
  else if !("+".data.isPrefixOf destinatario.data) &&
      !("0".data.isPrefixOf destinatario.data) then
    some "número debe empezar con + o 0"
  else
    none

/-- The pending record created by `SMSNotificador.EnviarNotificacion`. -/
def SMSNotificador.registroInicial (id destinatario mensaje : String) :
    RegistroNotificacion :=
  { id := id
    tipo := .sms
    destinatario := destinatario
    mensaje := mensaje
    estado := .pendiente
    intentos := 1
    error := "" }

/-- The record in its terminal state when `SMSNotificador.EnviarNotificacion`
returns (`Fallida` with `"Número no válido"` on the simulated failure branch,
`Enviada` otherwise). -/
def SMSNotificador.registroFinal (id destinatario mensaje : String)
    (fail : Bool) : RegistroNotificacion :=
  if fail then
    { SMSNotificador.registroInicial id destinatario mensaje with
        estado := .fallida, error := "Número no válido" }
  else
    { SMSNotificador.registroInicial id destinatario mensaje with
        estado := .enviada }

/-- `SMSNotificador.EnviarNotificacion`: validate destination, then message;
create a pending record, simulate the delivery (oracle bit `fail` standing
for `time.Now().UnixNano()%20 == 0`), finish the record in its terminal
state and return nil or `"fallo al enviar SMS"`. -/
def SMSNotificador.EnviarNotificacion (s : SMSNotificador)
    (destinatario mensaje : String) (id : String) (fail : Bool) :
    SMSNotificador × Option String :=
  match s.ValidarDestinatario destinatario with
  | some err => (s, some err)
  | none =>
    match s.ValidarMensaje mensaje with
    | some err => (s, some err)
    | none =>
      let registro := SMSNotificador.registroFinal id destinatario mensaje fail
      ({ s with registros := mapInsert s.registros id registro },
       if fail then some "fallo al enviar SMS" else none)

/-- `SMSNotificador.ObtenerEstado`: record-store lookup, error
`"SMS no encontrado"` when absent. -/
def SMSNotificador.ObtenerEstado (s : SMSNotificador) (id : String) :
    Except String String :=
  match mapLookup id s.registros with
  | some registro => .ok registro.estado.toStr
  | none => .error "SMS no encontrado"

/-- The loop body of `SMSNotificador.ObtenerEstadisticas` (keys
`"enviados"` / `"fallidos"`). -/
def pasoEstadisticaSMS (stats : List (String × Nat))
    (p : String × RegistroNotificacion) : List (String × Nat) :=
  let stats := mapInsert stats "total" ((mapLookup "total" stats).getD 0 + 1)
  match p.2.estado with
  | .enviada =>
      mapInsert stats "enviados" ((mapLookup "enviados" stats).getD 0 + 1)
  | .fallida =>
      mapInsert stats "fallidos" ((mapLookup "fallidos" stats).getD 0 + 1)
  | .pendiente =>
      mapInsert stats "pendientes" ((mapLookup "pendientes" stats).getD 0 + 1)
  | .entregada => stats

/-- `SMSNotificador.ObtenerEstadisticas`: scan the record store counting by
state (keys `"total"`, `"enviados"`, `"fallidos"`, `"pendientes"`). -/
def SMSNotificador.ObtenerEstadisticas (s : SMSNotificador) :
    List (String × Nat) :=
  s.registros.foldl pasoEstadisticaSMS
    [("total", 0), ("enviados", 0), ("fallidos", 0), ("pendientes", 0)]

/-- `SlackNotificador` — the minimal backend: webhook configuration only, no
record store, no validation, no tracking. -/
structure SlackNotificador where
  webhook : String
  canal : String
deriving DecidableEq, Repr

/-- `NuevoSlackNotificador` — constructor. -/
def NuevoSlackNotificador (webhook canal : String) : SlackNotificador :=
  { webhook := webhook, canal := canal }

/-- `SlackNotificador.EnviarNotificacion`: print and return nil — it never
fails and keeps no records. -/
def SlackNotificador.EnviarNotificacion (sl : SlackNotificador)
    (_destinatario _mensaje : String) : SlackNotificador × Option String :=
  (sl, none)

/-- The closed set of concrete backend types registered with the service, as
values of the `Notificador` interface. -/
inductive Notificador where
  | email (e : EmailNotificador)
  | sms (s : SMSNotificador)
  | slack (sl : SlackNotificador)
deriving DecidableEq, Repr

/-- `fmt.Sprintf("%T", notificador)` — the concrete type name used as the
result-map key. -/
def Notificador.tipoNombre : Notificador → String
  | .email _ => "*main.EmailNotificador"
  | .sms _ => "*main.SMSNotificador"
  | .slack _ => "*main.SlackNotificador"

/-- Dynamic dispatch of `EnviarNotificacion` through the `Notificador`
interface.  The oracle entry `(id, fail)` feeds the time-dependent branches
of the email and SMS backends; the Slack backend ignores it. -/
def Notificador.enviar (n : Notificador) (destinatario mensaje : String)
    (id : String) (fail : Bool) : Notificador × Option String :=
  match n with
  | .email e =>
      let r := e.EnviarNotificacion destinatario mensaje id fail
      (.email r.1, r.2)
  | .sms s =>
      let r := s.EnviarNotificacion destinatario mensaje id fail
      (.sms r.1, r.2)
  | .slack sl =>
      let r := sl.EnviarNotificacion destinatario mensaje
      (.slack r.1, r.2)

/-- The type assertion `notificador.(ValidadorMensaje)` — which concrete
backends implement the validation capability (email and SMS do, Slack does
not). -/
def Notificador.implementaValidador : Notificador → Bool
  | .email _ => true
  | .sms _ => true
  | .slack _ => false

/-- `validador.ValidarMensaje` through the capability handle (only called
when `implementaValidador` holds; arbitrary `none` for Slack, which has no
such method). -/
def Notificador.validarMensaje (n : Notificador) (mensaje : String) :
    Option String :=
  match n with
  | .email e => e.ValidarMensaje mensaje
  | .sms s => s.ValidarMensaje mensaje
  | .slack _ => none

/-- `validador.ValidarDestinatario` through the capability handle. -/
def Notificador.validarDestinatario (n : Notificador) (destinatario : String) :
    Option String :=
  match n with
  | .email e => e.ValidarDestinatario destinatario
  | .sms s => s.ValidarDestinatario destinatario
  | .slack _ => none

/-- `ServicioNotificaciones` — the dispatcher: the ordered collection of
registered backends and the optional shared logger (the logger only gates
observational output, so only its presence is modelled). -/
structure ServicioNotificaciones where
  notificadores : List Notificador
  logger : Option Unit
deriving DecidableEq, Repr

/-- `NuevoServicioNotificaciones` — empty collection, no logger. -/
def NuevoServicioNotificaciones : ServicioNotificaciones :=
  { notificadores := [], logger := none }

/-- `ServicioNotificaciones.AgregarNotificador`: append to the collection
(plus an informational log when a logger is configured). -/
def ServicioNotificaciones.AgregarNotificador (sn : ServicioNotificaciones)
    (notificador : Notificador) : ServicioNotificaciones :=
  { sn with notificadores := sn.notificadores ++ [notificador] }

/-- `ServicioNotificaciones.EstablecerLogger`: replace the shared logger. -/
def ServicioNotificaciones.EstablecerLogger (sn : ServicioNotificaciones)
    (logger : Option Unit) : ServicioNotificaciones :=
  { sn with logger := logger }

/-- The oracle entry consumed by the `i`-th backend of a dispatch loop. -/
def envAt (env : List (String × Bool)) (i : Nat) : String × Bool :=
  ((env.drop i).headD ("", false))

/-- The body of the `EnviarATodos` loop for the whole backend list: for each
backend in registration order, invoke `EnviarNotificacion` and pair the
updated backend with its result-map entry `(tipoNotificador, err)`. -/
def enviarATodosAux (destinatario mensaje : String) :
    List Notificador → List (String × Bool) →
    List (Notificador × String × Option String)
  | [], _ => []
  | n :: ns, env =>
      let ev := env.headD ("", false)
      let r := n.enviar destinatario mensaje ev.1 ev.2
      (r.1, n.tipoNombre, r.2) :: enviarATodosAux destinatario mensaje ns env.tail

/-- Accumulate the per-backend entries into the Go result map
`resultados[tipoNotificador] = err` in loop order (later assignments to the
same key overwrite earlier ones). -/
def buildResultMap (pares : List (String × Option String)) :
    List (String × Option String) :=
  pares.foldl (fun acc p => mapInsert acc p.1 p.2) []

/-- `ServicioNotificaciones.EnviarATodos`: iterate the registered backends
in registration order, invoking every backend's `EnviarNotificacion` and
recording its outcome under the backend's type name; return the updated
backends and the result map. -/
def ServicioNotificaciones.EnviarATodos (sn : ServicioNotificaciones)
    (destinatario mensaje : String) (env : List (String × Bool)) :
    ServicioNotificaciones × List (String × Option String) :=
  let pasos := enviarATodosAux destinatario mensaje sn.notificadores env
  ({ sn with notificadores := pasos.map (fun p => p.1) },
   buildResultMap (pasos.map (fun p => p.2)))

/-- One backend's step of the `EnviarConValidacion` loop: if the backend
implements `ValidadorMensaje`, validate the message, then the destination —
on failure record the prefixed error and skip the send (`continue`);
otherwise, or when validation passes, invoke `EnviarNotificacion`. -/
def pasoConValidacion (n : Notificador) (destinatario mensaje : String)
    (id : String) (fail : Bool) : Notificador × Option String :=
  if n.implementaValidador then
    match n.validarMensaje mensaje with
    | some err => (n, some ("validación falló: " ++ err))
    | none =>
      match n.validarDestinatario destinatario with
      | some err => (n, some ("destinatario inválido: " ++ err))
      | none => n.enviar destinatario mensaje id fail
  else
    n.enviar destinatario mensaje id fail

/-- The body of the `EnviarConValidacion` loop for the whole backend list. -/
def enviarConValidacionAux (destinatario mensaje : String) :
    List Notificador → List (String × Bool) →
    List (Notificador × String × Option String)
  | [], _ => []
  | n :: ns, env =>
      let ev := env.headD ("", false)
      let r := pasoConValidacion n destinatario mensaje ev.1 ev.2
      (r.1, n.tipoNombre, r.2) ::
        enviarConValidacionAux destinatario mensaje ns env.tail

/-- `ServicioNotificaciones.EnviarConValidacion`: like `EnviarATodos`, but
each validation-capable backend validates message then destination first,
and a validation failure records a failure outcome and skips only that
backend's send. -/
def ServicioNotificaciones.EnviarConValidacion (sn : ServicioNotificaciones)
    (destinatario mensaje : String) (env : List (String × Bool)) :
    ServicioNotificaciones × List (String × Option String) :=
  let pasos := enviarConValidacionAux destinatario mensaje sn.notificadores env
  ({ sn with notificadores := pasos.map (fun p => p.1) },
   buildResultMap (pasos.map (fun p => p.2)))

/-- The value recorded by the last loop iteration that wrote key `k`
(`none` when no iteration wrote `k`): the observable content of a Go map
built by repeated assignment. -/
def lookupLast {α : Type} (ps : List (String × α)) (k : String) : Option α :=
  match ps with
  | [] => none
  | p :: rest =>
    match lookupLast rest k with
    | some v => some v
    | none => if p.1 = k then some p.2 else none

theorem any_key_iff {α : Type} (m : List (String × α)) (k : String) :
    (m.any fun p => p.1 = k) = true ↔ k ∈ m.map Prod.fst := by
  simp [List.any_eq_true, List.mem_map]

theorem mapLookup_isSome_iff {α : Type} (k : String) (m : List (String × α)) :
    (mapLookup k m).isSome = true ↔ k ∈ m.map Prod.fst := by
  induction m with
  | nil => simp [mapLookup]
  | cons p ps ih =>
    by_cases h : p.1 = k
    · simp [mapLookup, h]
    · have h' : ¬k = p.1 := fun e => h e.symm
      simp [mapLookup, h, h', ih]

theorem mapLookup_eq_none_iff {α : Type} (k : String) (m : List (String × α)) :
    mapLookup k m = none ↔ k ∉ m.map Prod.fst := by
  rw [← mapLookup_isSome_iff]
  cases mapLookup k m <;> simp

theorem mapLookup_replace_self {α : Type} (k : String) (v : α)
    (m : List (String × α)) (h : k ∈ m.map Prod.fst) :
    mapLookup k (m.map fun p => if p.1 = k then (k, v) else p) = some v := by
  induction m with
  | nil => simp at h
  | cons p ps ih =>
    by_cases hp : p.1 = k
    · simp [mapLookup, hp]
    · have h' : ¬k = p.1 := fun e => hp e.symm
      have h0 : k = p.1 ∨ k ∈ ps.map Prod.fst := by simpa using h
      have hmem : k ∈ ps.map Prod.fst := by
        rcases h0 with h0 | h0
        · exact absurd h0 h'
        · exact h0
      simp [mapLookup, hp, h', ih hmem]

theorem mapLookup_append_self {α : Type} (k : String) (v : α)
    (m : List (String × α)) (h : k ∉ m.map Prod.fst) :
    mapLookup k (m ++ [(k, v)]) = some v := by
  induction m with
  | nil => simp [mapLookup]
  | cons p ps ih =>
    simp only [List.map_cons, List.mem_cons] at h
    push_neg at h
    have hp : ¬p.1 = k := fun e => h.1 e.symm
    simpa [mapLookup, hp] using ih h.2

theorem mapLookup_mapInsert_self {α : Type} (m : List (String × α))
    (k : String) (v : α) : mapLookup k (mapInsert m k v) = some v := by
  unfold mapInsert
  by_cases h : k ∈ m.map Prod.fst
  · rw [if_pos ((any_key_iff m k).mpr h)]
    exact mapLookup_replace_self k v m h
  · rw [if_neg (fun ha => h ((any_key_iff m k).mp ha))]
    exact mapLookup_append_self k v m h

theorem mapLookup_replace_ne {α : Type} (m : List (String × α))
    (k k' : String) (v : α) (h : k' ≠ k) :
    mapLookup k' (m.map fun p => if p.1 = k then (k, v) else p) =
      mapLookup k' m := by
  induction m with
  | nil => rfl
  | cons p ps ih =>
    by_cases hp : p.1 = k
    · simp [mapLookup, hp, Ne.symm h, ih]
    · by_cases hq : p.1 = k'
      · simp [mapLookup, hp, hq, h]
      · simp [mapLookup, hp, hq, ih]

theorem mapLookup_append_ne {α : Type} (m : List (String × α))
    (k k' : String) (v : α) (h : k' ≠ k) :
    mapLookup k' (m ++ [(k, v)]) = mapLookup k' m := by
  induction m with
  | nil => simp [mapLookup, Ne.symm h]
  | cons p ps ih =>
    by_cases hq : p.1 = k'
    · simp [mapLookup, hq]
    · simp [mapLookup, hq, ih]

theorem mapLookup_mapInsert_ne {α : Type} (m : List (String × α))
    (k k' : String) (v : α) (h : k' ≠ k) :
    mapLookup k' (mapInsert m k v) = mapLookup k' m := by
  unfold mapInsert
  split
  · exact mapLookup_replace_ne m k k' v h
  · exact mapLookup_append_ne m k k' v h

theorem keys_map_replace {α : Type} (m : List (String × α)) (k : String)
    (v : α) :
    ((m.map fun p => if p.1 = k then (k, v) else p).map Prod.fst) =
      m.map Prod.fst := by
  induction m with
  | nil => rfl
  | cons p ps ih =>
    by_cases hp : p.1 = k
    · simp [hp, ih]
    · simp [hp, ih]

theorem mem_keys_mapInsert {α : Type} (m : List (String × α)) (k k' : String)
    (v : α) :
    k' ∈ (mapInsert m k v).map Prod.fst ↔ k' = k ∨ k' ∈ m.map Prod.fst := by
  unfold mapInsert
  split
  · rename_i h
    rw [keys_map_replace]
    have hk : k ∈ m.map Prod.fst := (any_key_iff m k).mp h
    constructor
    · exact Or.inr
    · rintro (rfl | h')
      · exact hk
      · exact h'
  · simp only [List.map_append, List.map_cons, List.map_nil, List.mem_append,
      List.mem_singleton]
    tauto

theorem nodup_keys_mapInsert {α : Type} (m : List (String × α)) (k : String)
    (v : α) (h : (m.map Prod.fst).Nodup) :
    ((mapInsert m k v).map Prod.fst).Nodup := by
  unfold mapInsert
  split
  · rwa [keys_map_replace]
  · rename_i ha
    have hk : k ∉ m.map Prod.fst := fun hm => ha ((any_key_iff m k).mpr hm)
    simp [List.nodup_append, h, hk]

theorem mem_keys_buildFold {α : Type} (ps : List (String × α)) :
    ∀ (acc : List (String × α)) (k : String),
      k ∈ ((ps.foldl (fun acc p => mapInsert acc p.1 p.2) acc).map Prod.fst) ↔
        k ∈ acc.map Prod.fst ∨ k ∈ ps.map Prod.fst := by
  induction ps with
  | nil => simp
  | cons p ps ih =>
    intro acc k
    simp only [List.foldl_cons, ih, mem_keys_mapInsert, List.map_cons,
      List.mem_cons]
    tauto

theorem nodup_keys_buildFold {α : Type} (ps : List (String × α)) :
    ∀ acc : List (String × α), (acc.map Prod.fst).Nodup →
      ((ps.foldl (fun acc p => mapInsert acc p.1 p.2) acc).map Prod.fst).Nodup := by
  induction ps with
  | nil => intro acc h; exact h
  | cons p ps ih => intro acc h; exact ih _ (nodup_keys_mapInsert _ _ _ h)

theorem mapLookup_buildFold {α : Type} (ps : List (String × α)) :
    ∀ (acc : List (String × α)) (k : String),
      mapLookup k (ps.foldl (fun acc p => mapInsert acc p.1 p.2) acc) =
        match lookupLast ps k with
        | some v => some v
        | none => mapLookup k acc := by
  induction ps with
  | nil => intro acc k; rfl
  | cons p ps ih =>
    intro acc k
    rw [List.foldl_cons, ih]
    cases hl : lookupLast ps k with
    | some v => simp [lookupLast, hl]
    | none =>
      simp only [lookupLast, hl]
      by_cases hp : p.1 = k
      · subst hp
        simp [mapLookup_mapInsert_self]
      · have h' : k ≠ p.1 := fun e => hp e.symm
        simp [hp, mapLookup_mapInsert_ne _ _ _ _ h']

theorem mapLookup_buildResultMap (ps : List (String × Option String))
    (k : String) : mapLookup k (buildResultMap ps) = lookupLast ps k := by
  rw [buildResultMap, mapLookup_buildFold]
  cases lookupLast ps k <;> rfl

theorem mem_keys_buildResultMap (ps : List (String × Option String))
    (k : String) :
    k ∈ (buildResultMap ps).map Prod.fst ↔ k ∈ ps.map Prod.fst := by
  rw [buildResultMap, mem_keys_buildFold]
  simp

theorem nodup_keys_buildResultMap (ps : List (String × Option String)) :
    ((buildResultMap ps).map Prod.fst).Nodup :=
  nodup_keys_buildFold ps [] (by simp)

theorem length_buildResultMap (ps : List (String × Option String)) :
    (buildResultMap ps).length = (ps.map Prod.fst).dedup.length := by
  have h1 : ((buildResultMap ps).map Prod.fst).length =
      (buildResultMap ps).length := by simp
  rw [← h1]
  have hn := nodup_keys_buildResultMap ps
  have hd : (ps.map Prod.fst).dedup.Nodup := List.nodup_dedup _
  have hfin : ((buildResultMap ps).map Prod.fst).toFinset =
      ((ps.map Prod.fst).dedup).toFinset := by
    ext x
    rw [List.mem_toFinset, List.mem_toFinset, List.mem_dedup]
    exact mem_keys_buildResultMap ps x
  calc ((buildResultMap ps).map Prod.fst).length
      = ((buildResultMap ps).map Prod.fst).toFinset.card :=
        (List.toFinset_card_of_nodup hn).symm
    _ = ((ps.map Prod.fst).dedup).toFinset.card := by rw [hfin]
    _ = ((ps.map Prod.fst).dedup).length := List.toFinset_card_of_nodup hd

theorem envAt_tail (env : List (String × Bool)) (i : Nat) :
    envAt env.tail i = envAt env (i + 1) := by
  cases env <;> simp [envAt]

theorem enviarATodosAux_getElem (destinatario mensaje : String)
    (ns : List Notificador) (env : List (String × Bool)) (i : Nat) :
    (enviarATodosAux destinatario mensaje ns env)[i]? =
      ns[i]?.map (fun n =>
        ((n.enviar destinatario mensaje (envAt env i).1 (envAt env i).2).1,
         n.tipoNombre,
         (n.enviar destinatario mensaje (envAt env i).1 (envAt env i).2).2)) := by
  induction ns generalizing env i with
  | nil => simp [enviarATodosAux]
  | cons n ns ih =>
    cases i with
    | zero => simp [enviarATodosAux, envAt]
    | succ j =>
      simp only [enviarATodosAux, List.getElem?_cons_succ]
      rw [ih, envAt_tail]

theorem enviarATodosAux_keys (destinatario mensaje : String)
    (ns : List Notificador) (env : List (String × Bool)) :
    (((enviarATodosAux destinatario mensaje ns env).map
        (fun p => p.2)).map Prod.fst) = ns.map Notificador.tipoNombre := by
  induction ns generalizing env with
  | nil => rfl
  | cons n ns ih => simp [enviarATodosAux, ih]

theorem enviarConValidacionAux_getElem (destinatario mensaje : String)
    (ns : List Notificador) (env : List (String × Bool)) (i : Nat) :
    (enviarConValidacionAux destinatario mensaje ns env)[i]? =
      ns[i]?.map (fun n =>
        ((pasoConValidacion n destinatario mensaje (envAt env i).1
            (envAt env i).2).1,
         n.tipoNombre,
         (pasoConValidacion n destinatario mensaje (envAt env i).1
            (envAt env i).2).2)) := by
  induction ns generalizing env i with
  | nil => simp [enviarConValidacionAux]
  | cons n ns ih =>
    cases i with
    | zero => simp [enviarConValidacionAux, envAt]
    | succ j =>
      simp only [enviarConValidacionAux, List.getElem?_cons_succ]
      rw [ih, envAt_tail]

theorem enviarConValidacionAux_keys (destinatario mensaje : String)
    (ns : List Notificador) (env : List (String × Bool)) :
    (((enviarConValidacionAux destinatario mensaje ns env).map
        (fun p => p.2)).map Prod.fst) = ns.map Notificador.tipoNombre := by
  induction ns generalizing env with
  | nil => rfl
  | cons n ns ih => simp [enviarConValidacionAux, ih]

theorem EnviarATodos_snd (sn : ServicioNotificaciones)
    (destinatario mensaje : String) (env : List (String × Bool)) :
    (sn.EnviarATodos destinatario mensaje env).2 =
      buildResultMap ((enviarATodosAux destinatario mensaje sn.notificadores
        env).map (fun p => p.2)) := rfl

theorem EnviarATodos_fst (sn : ServicioNotificaciones)
    (destinatario mensaje : String) (env : List (String × Bool)) :
    (sn.EnviarATodos destinatario mensaje env).1.notificadores =
      (enviarATodosAux destinatario mensaje sn.notificadores env).map
        (fun p => p.1) := rfl

theorem EnviarConValidacion_snd (sn : ServicioNotificaciones)
    (destinatario mensaje : String) (env : List (String × Bool)) :
    (sn.EnviarConValidacion destinatario mensaje env).2 =
      buildResultMap ((enviarConValidacionAux destinatario mensaje
        sn.notificadores env).map (fun p => p.2)) := rfl

theorem EnviarConValidacion_fst (sn : ServicioNotificaciones)
    (destinatario mensaje : String) (env : List (String × Bool)) :
    (sn.EnviarConValidacion destinatario mensaje env).1.notificadores =
      (enviarConValidacionAux destinatario mensaje sn.notificadores env).map
        (fun p => p.1) := rfl

/-- C1: `EnviarATodos` returns a result map holding an entry for every
registered backend's identity (its type name), whose size equals the number
of distinct backend type names registered, and it invokes every backend's
`EnviarNotificacion`: the `i`-th backend after the dispatch is exactly the
`i`-th registered backend updated by its own send, independently of every
other backend's outcome. -/
theorem EnviarATodos_resultado_completo (sn : ServicioNotificaciones)
    (destinatario mensaje : String) (env : List (String × Bool)) :
    (∀ n ∈ sn.notificadores,
      (mapLookup n.tipoNombre
        (sn.EnviarATodos destinatario mensaje env).2).isSome = true) ∧
    (sn.EnviarATodos destinatario mensaje env).2.length =
      (sn.notificadores.map Notificador.tipoNombre).dedup.length ∧
    ∀ i : Nat,
      ((sn.EnviarATodos destinatario mensaje env).1.notificadores)[i]? =
        (sn.notificadores[i]?).map (fun n =>
          (n.enviar destinatario mensaje (envAt env i).1 (envAt env i).2).1) := by
  refine ⟨?_, ?_, ?_⟩
  · intro n hn
    rw [EnviarATodos_snd, mapLookup_isSome_iff, mem_keys_buildResultMap,
      enviarATodosAux_keys]
    exact List.mem_map_of_mem _ hn
  · rw [EnviarATodos_snd, length_buildResultMap, enviarATodosAux_keys]
  · intro i
    rw [EnviarATodos_fst, List.getElem?_map, enviarATodosAux_getElem]
    cases sn.notificadores[i]? <;> rfl

/-- C1 witness: a concrete three-backend service dispatched once. -/
theorem EnviarATodos_resultado_completo_witness :
    (mapLookup "*main.SlackNotificador"
      (({ notificadores :=
            [.email (NuevoEmailNotificador "smtp" 587 "u" "p"),
             .slack (NuevoSlackNotificador "w" "c")],
          logger := none } : ServicioNotificaciones).EnviarATodos
        "a@b.c" "hola" [("id1", false), ("id2", false)]).2).isSome = true :=
  (EnviarATodos_resultado_completo
    { notificadores :=
        [.email (NuevoEmailNotificador "smtp" 587 "u" "p"),
         .slack (NuevoSlackNotificador "w" "c")],
      logger := none }
    "a@b.c" "hola" [("id1", false), ("id2", false)]).1
    (.slack (NuevoSlackNotificador "w" "c")) (by simp)

theorem paso_omite_mensaje (n : Notificador) (destinatario mensaje id : String)
    (fail : Bool) (err : String) (himp : n.implementaValidador = true)
    (hm : n.validarMensaje mensaje = some err) :
    pasoConValidacion n destinatario mensaje id fail =
      (n, some ("validación falló: " ++ err)) := by
  simp [pasoConValidacion, himp, hm]

theorem paso_omite_destinatario (n : Notificador)
    (destinatario mensaje id : String) (fail : Bool) (err : String)
    (himp : n.implementaValidador = true)
    (hm : n.validarMensaje mensaje = none)
    (hd : n.validarDestinatario destinatario = some err) :
    pasoConValidacion n destinatario mensaje id fail =
      (n, some ("destinatario inválido: " ++ err)) := by
  simp [pasoConValidacion, himp, hm, hd]

theorem paso_envia (n : Notificador) (destinatario mensaje id : String)
    (fail : Bool)
    (h : n.implementaValidador = false ∨
      (n.validarMensaje mensaje = none ∧
       n.validarDestinatario destinatario = none)) :
    pasoConValidacion n destinatario mensaje id fail =
      n.enviar destinatario mensaje id fail := by
  rcases h with h | ⟨hm, hd⟩
  · simp [pasoConValidacion, h]
  · simp [pasoConValidacion, hm, hd]

/-- C2: for every registered backend, `EnviarConValidacion` checks the
validation capability: when present, it validates the message and then the
destination — a failure records a `"validación falló"` / `"destinatario
inválido"` outcome for that backend and skips its send (the backend's state
is unchanged), while the loop still processes every other backend (each
position's outcome depends only on that backend); when the capability is
absent or validation passes, the backend's send runs as in `EnviarATodos`. -/
theorem EnviarConValidacion_valida_y_omite (sn : ServicioNotificaciones)
    (destinatario mensaje : String) (env : List (String × Bool)) (i : Nat)
    (n : Notificador) (h : sn.notificadores[i]? = some n) :
    (∀ err, n.implementaValidador = true →
      n.validarMensaje mensaje = some err →
      (sn.EnviarConValidacion destinatario mensaje env).1.notificadores[i]? =
          some n ∧
      (enviarConValidacionAux destinatario mensaje sn.notificadores env)[i]? =
        some (n, n.tipoNombre, some ("validación falló: " ++ err))) ∧
    (∀ err, n.implementaValidador = true →
      n.validarMensaje mensaje = none →
      n.validarDestinatario destinatario = some err →
      (sn.EnviarConValidacion destinatario mensaje env).1.notificadores[i]? =
          some n ∧
      (enviarConValidacionAux destinatario mensaje sn.notificadores env)[i]? =
        some (n, n.tipoNombre, some ("destinatario inválido: " ++ err))) ∧
    (n.implementaValidador = false ∨
      (n.validarMensaje mensaje = none ∧
       n.validarDestinatario destinatario = none) →
      (sn.EnviarConValidacion destinatario mensaje env).1.notificadores[i]? =
        some ((n.enviar destinatario mensaje (envAt env i).1
          (envAt env i).2).1) ∧
      (enviarConValidacionAux destinatario mensaje sn.notificadores env)[i]? =
        some ((n.enviar destinatario mensaje (envAt env i).1 (envAt env i).2).1,
          n.tipoNombre,
          (n.enviar destinatario mensaje (envAt env i).1 (envAt env i).2).2)) := by
  have haux := enviarConValidacionAux_getElem destinatario mensaje
    sn.notificadores env i
  rw [h] at haux
  simp only [Option.map_some'] at haux
  have hfst : (sn.EnviarConValidacion destinatario mensaje env).1.notificadores[i]? =
      some ((pasoConValidacion n destinatario mensaje (envAt env i).1
        (envAt env i).2).1) := by
    rw [EnviarConValidacion_fst, List.getElem?_map, haux]
    rfl
  refine ⟨?_, ?_, ?_⟩
  · intro err himp hm
    rw [paso_omite_mensaje n destinatario mensaje _ _ err himp hm] at haux hfst
    exact ⟨hfst, haux⟩
  · intro err himp hm hd
    rw [paso_omite_destinatario n destinatario mensaje _ _ err himp hm hd]
      at haux hfst
    exact ⟨hfst, haux⟩
  · intro hor
    rw [paso_envia n destinatario mensaje _ _ hor] at haux hfst
    exact ⟨hfst, haux⟩

/-- C2 witness: an email backend with an empty message — validation fails,
the send is skipped and the failure outcome is recorded. -/
theorem EnviarConValidacion_valida_y_omite_witness :
    (enviarConValidacionAux "user@x.com" ""
      [Notificador.email (NuevoEmailNotificador "smtp" 587 "u" "p")]
      [("id1", false)])[0]? =
      some (Notificador.email (NuevoEmailNotificador "smtp" 587 "u" "p"),
        "*main.EmailNotificador",
        some ("validación falló: " ++ "mensaje no puede estar vacío")) :=
  ((EnviarConValidacion_valida_y_omite
      { notificadores :=
          [Notificador.email (NuevoEmailNotificador "smtp" 587 "u" "p")],
        logger := none }
      "user@x.com" "" [("id1", false)] 0
      (Notificador.email (NuevoEmailNotificador "smtp" 587 "u" "p"))
      (by rfl)).1 "mensaje no puede estar vacío" (by rfl) (by rfl)).2

theorem mapInsert_length_fresh {α : Type} (m : List (String × α)) (k : String)
    (v : α) (h : mapLookup k m = none) :
    (mapInsert m k v).length = m.length + 1 := by
  unfold mapInsert
  rw [if_neg]
  · simp
  · intro ha
    rw [mapLookup_eq_none_iff] at h
    exact h ((any_key_iff m k).mp ha)

/-- C3 counterexample: a call to the email backend's `EnviarNotificacion`
with a destination lacking `@` returns an error yet creates no delivery
record at all — so not every `Send` call creates exactly one new record with
a terminal state. -/
theorem enviarNotificacion_sin_registro_contraejemplo :
    (((NuevoEmailNotificador "smtp" 587 "u" "p").EnviarNotificacion
        "bad" "hola" "id1" false).2.isSome = true) ∧
    ((NuevoEmailNotificador "smtp" 587 "u" "p").EnviarNotificacion
        "bad" "hola" "id1" false).1.registros.length = 0 := by
  constructor
  · decide
  · decide

/-- C3 (amended): for the email and SMS backends, a `Send` call whose input
passes the backend's internal validation performs one delivery attempt and
creates exactly one new record (under the fresh generated id) whose state is
`Enviada` or `Fallida`, returning an error exactly when the attempt failed;
a call rejected by internal validation returns an error and leaves the store
unchanged; the Slack backend keeps no records and always succeeds. -/
theorem enviarNotificacion_registro_unico
    (e : EmailNotificador) (s : SMSNotificador) (sl : SlackNotificador)
    (destinatario mensaje id : String) (fail : Bool) :
    (e.ValidarDestinatario destinatario = none →
     e.ValidarMensaje mensaje = none →
     mapLookup id e.registros = none →
     (e.EnviarNotificacion destinatario mensaje id fail).1.registros.length =
       e.registros.length + 1 ∧
     mapLookup id
         (e.EnviarNotificacion destinatario mensaje id fail).1.registros =
       some (EmailNotificador.registroFinal id destinatario mensaje fail) ∧
     (EmailNotificador.registroFinal id destinatario mensaje fail).estado =
       (if fail then .fallida else .enviada) ∧
     (e.EnviarNotificacion destinatario mensaje id fail).2.isSome = fail) ∧
    ((e.ValidarDestinatario destinatario ≠ none ∨
      e.ValidarMensaje mensaje ≠ none) →
     (e.EnviarNotificacion destinatario mensaje id fail).1 = e ∧
     (e.EnviarNotificacion destinatario mensaje id fail).2.isSome = true) ∧
    (s.ValidarDestinatario destinatario = none →
     s.ValidarMensaje mensaje = none →
     mapLookup id s.registros = none →
     (s.EnviarNotificacion destinatario mensaje id fail).1.registros.length =
       s.registros.length + 1 ∧
     mapLookup id
         (s.EnviarNotificacion destinatario mensaje id fail).1.registros =
       some (SMSNotificador.registroFinal id destinatario mensaje fail) ∧
     (SMSNotificador.registroFinal id destinatario mensaje fail).estado =
       (if fail then .fallida else .enviada) ∧
     (s.EnviarNotificacion destinatario mensaje id fail).2.isSome = fail) ∧
    ((s.ValidarDestinatario destinatario ≠ none ∨
      s.ValidarMensaje mensaje ≠ none) →
     (s.EnviarNotificacion destinatario mensaje id fail).1 = s ∧
     (s.EnviarNotificacion destinatario mensaje id fail).2.isSome = true) ∧
    ((sl.EnviarNotificacion destinatario mensaje).1 = sl ∧
     (sl.EnviarNotificacion destinatario mensaje).2 = none) := by
  refine ⟨?_, ?_, ?_, ?_, ⟨rfl, rfl⟩⟩
  · intro hd hm hfresh
    refine ⟨?_, ?_, ?_, ?_⟩
    · simp only [EmailNotificador.EnviarNotificacion, hd, hm]
      exact mapInsert_length_fresh _ _ _ hfresh
    · simp only [EmailNotificador.EnviarNotificacion, hd, hm]
      exact mapLookup_mapInsert_self _ _ _
    · cases fail <;>
        simp [EmailNotificador.registroFinal, EmailNotificador.registroInicial]
    · simp only [EmailNotificador.EnviarNotificacion, hd, hm]
      cases fail <;> simp
  · intro hbad
    cases hvd : e.ValidarDestinatario destinatario with
    | some err => simp [EmailNotificador.EnviarNotificacion, hvd]
    | none =>
      cases hvm : e.ValidarMensaje mensaje with
      | some err => simp [EmailNotificador.EnviarNotificacion, hvd, hvm]
      | none =>
        rcases hbad with hbad | hbad
        · exact absurd hvd hbad
        · exact absurd hvm hbad
  · intro hd hm hfresh
    refine ⟨?_, ?_, ?_, ?_⟩
    · simp only [SMSNotificador.EnviarNotificacion, hd, hm]
      exact mapInsert_length_fresh _ _ _ hfresh
    · simp only [SMSNotificador.EnviarNotificacion, hd, hm]
      exact mapLookup_mapInsert_self _ _ _
    · cases fail <;>
        simp [SMSNotificador.registroFinal, SMSNotificador.registroInicial]
    · simp only [SMSNotificador.EnviarNotificacion, hd, hm]
      cases fail <;> simp
  · intro hbad
    cases hvd : s.ValidarDestinatario destinatario with
    | some err => simp [SMSNotificador.EnviarNotificacion, hvd]
    | none =>
      cases hvm : s.ValidarMensaje mensaje with
      | some err => simp [SMSNotificador.EnviarNotificacion, hvd, hvm]
      | none =>
        rcases hbad with hbad | hbad
        · exact absurd hvd hbad
        · exact absurd hvm hbad

/-- C3 (amended) witness: a concrete successful email send adds exactly one
record. -/
theorem enviarNotificacion_registro_unico_witness :
    ((NuevoEmailNotificador "smtp" 587 "u" "p").EnviarNotificacion
        "a@b.c" "hola" "id1" false).1.registros.length =
      (NuevoEmailNotificador "smtp" 587 "u" "p").registros.length + 1 :=
  ((enviarNotificacion_registro_unico
      (NuevoEmailNotificador "smtp" 587 "u" "p")
      (NuevoSMSNotificador "k" "prov")
      (NuevoSlackNotificador "w" "c")
      "a@b.c" "hola" "id1" false).1 (by decide) (by decide) (by decide)).1

/-- C4: when the message exceeds a validation-capable backend's length
limit (1000 characters for email, 160 for SMS), `EnviarConValidacion`
records a `"validación falló"` outcome for that backend and leaves the
backend — hence its record store — untouched: its `Send` is never
invoked. -/
theorem EnviarConValidacion_mensaje_largo_sin_registro
    (sn : ServicioNotificaciones) (destinatario mensaje : String)
    (env : List (String × Bool)) :
    (∀ (i : Nat) (e : EmailNotificador),
      sn.notificadores[i]? = some (.email e) → mensaje.length > 1000 →
      (enviarConValidacionAux destinatario mensaje sn.notificadores env)[i]? =
        some (Notificador.email e, "*main.EmailNotificador",
          some ("validación falló: " ++
            "mensaje muy largo (máximo 1000 caracteres)")) ∧
      (sn.EnviarConValidacion destinatario mensaje env).1.notificadores[i]? =
        some (Notificador.email e)) ∧
    (∀ (j : Nat) (s : SMSNotificador),
      sn.notificadores[j]? = some (.sms s) → mensaje.length > 160 →
      (enviarConValidacionAux destinatario mensaje sn.notificadores env)[j]? =
        some (Notificador.sms s, "*main.SMSNotificador",
          some ("validación falló: " ++
            "mensaje SMS muy largo (máximo 160 caracteres)")) ∧
      (sn.EnviarConValidacion destinatario mensaje env).1.notificadores[j]? =
        some (Notificador.sms s)) := by
  constructor
  · intro i e h hlen
    have hne : ¬mensaje.length = 0 := by omega
    have hm : (Notificador.email e).validarMensaje mensaje =
        some "mensaje muy largo (máximo 1000 caracteres)" := by
      simp [Notificador.validarMensaje, EmailNotificador.ValidarMensaje,
        hne, hlen]
    have haux := enviarConValidacionAux_getElem destinatario mensaje
      sn.notificadores env i
    rw [h] at haux
    simp only [Option.map_some'] at haux
    have hfst : (sn.EnviarConValidacion destinatario mensaje
          env).1.notificadores[i]? =
        some ((pasoConValidacion (Notificador.email e) destinatario mensaje
          (envAt env i).1 (envAt env i).2).1) := by
      rw [EnviarConValidacion_fst, List.getElem?_map, haux]
      rfl
    rw [paso_omite_mensaje (Notificador.email e) destinatario mensaje _ _ _
      rfl hm] at haux hfst
    exact ⟨haux, hfst⟩
  · intro j s h hlen
    have hne : ¬mensaje.length = 0 := by omega
    have hm : (Notificador.sms s).validarMensaje mensaje =
        some "mensaje SMS muy largo (máximo 160 caracteres)" := by
      simp [Notificador.validarMensaje, SMSNotificador.ValidarMensaje,
        hne, hlen]
    have haux := enviarConValidacionAux_getElem destinatario mensaje
      sn.notificadores env j
    rw [h] at haux
    simp only [Option.map_some'] at haux
    have hfst : (sn.EnviarConValidacion destinatario mensaje
          env).1.notificadores[j]? =
        some ((pasoConValidacion (Notificador.sms s) destinatario mensaje
          (envAt env j).1 (envAt env j).2).1) := by
      rw [EnviarConValidacion_fst, List.getElem?_map, haux]
      rfl
    rw [paso_omite_mensaje (Notificador.sms s) destinatario mensaje _ _ _
      rfl hm] at haux hfst
    exact ⟨haux, hfst⟩

/-- C4 witness: a 1001-character message against a one-email-backend
service. -/
theorem EnviarConValidacion_mensaje_largo_sin_registro_witness :
    (({ notificadores :=
          [Notificador.email (NuevoEmailNotificador "smtp" 587 "u" "p")],
        logger := none } : ServicioNotificaciones).EnviarConValidacion
        "a@b.c" (String.mk (List.replicate 1001 'a'))
        [("id1", false)]).1.notificadores[0]? =
      some (Notificador.email (NuevoEmailNotificador "smtp" 587 "u" "p")) :=
  ((EnviarConValidacion_mensaje_largo_sin_registro
    { notificadores :=
        [Notificador.email (NuevoEmailNotificador "smtp" 587 "u" "p")],
      logger := none }
    "a@b.c" (String.mk (List.replicate 1001 'a')) [("id1", false)]).1 0
    (NuevoEmailNotificador "smtp" 587 "u" "p") (by rfl)
    (by show 1000 < (List.replicate 1001 'a').length
        rw [List.length_replicate]
        omega)).2

/-- C5: the email backend's `ValidarMensaje` succeeds exactly on non-empty
messages of at most 1000 characters, and its `ValidarDestinatario` succeeds
exactly on destinations containing both an `@` and a `.` character; every
other input yields a validation error. -/
theorem validacion_email_caracterizada (e : EmailNotificador)
    (mensaje destinatario : String) :
    (e.ValidarMensaje mensaje = none ↔
      mensaje.length ≠ 0 ∧ mensaje.length ≤ 1000) ∧
    (e.ValidarDestinatario destinatario = none ↔
      (destinatario.data.any fun a => a = '@') = true ∧
      (destinatario.data.any fun a => a = '.') = true) := by
  constructor
  · by_cases h0 : mensaje.length = 0
    · simp [EmailNotificador.ValidarMensaje, h0]
    · by_cases h1 : mensaje.length > 1000
      · simp only [EmailNotificador.ValidarMensaje, h0, h1]
        simp
        omega
      · simp only [EmailNotificador.ValidarMensaje, h0, h1]
        simp [h0]
        omega
  · by_cases ha : (destinatario.data.any fun a => a = '@') = true
    · by_cases hd : (destinatario.data.any fun a => a = '.') = true
      · simp [EmailNotificador.ValidarDestinatario, ha, hd]
      · simp [EmailNotificador.ValidarDestinatario, ha, hd]
    · simp [EmailNotificador.ValidarDestinatario, ha]

theorem email_registros_cases (e : EmailNotificador)
    (destinatario mensaje id : String) (fail : Bool) :
    (e.EnviarNotificacion destinatario mensaje id fail).1.registros =
        e.registros ∨
    (e.EnviarNotificacion destinatario mensaje id fail).1.registros =
      mapInsert e.registros id
        (EmailNotificador.registroFinal id destinatario mensaje fail) := by
  cases hvd : e.ValidarDestinatario destinatario with
  | some err => left; simp [EmailNotificador.EnviarNotificacion, hvd]
  | none =>
    cases hvm : e.ValidarMensaje mensaje with
    | some err => left; simp [EmailNotificador.EnviarNotificacion, hvd, hvm]
    | none => right; simp [EmailNotificador.EnviarNotificacion, hvd, hvm]

theorem sms_registros_cases (s : SMSNotificador)
    (destinatario mensaje id : String) (fail : Bool) :
    (s.EnviarNotificacion destinatario mensaje id fail).1.registros =
        s.registros ∨
    (s.EnviarNotificacion destinatario mensaje id fail).1.registros =
      mapInsert s.registros id
        (SMSNotificador.registroFinal id destinatario mensaje fail) := by
  cases hvd : s.ValidarDestinatario destinatario with
  | some err => left; simp [SMSNotificador.EnviarNotificacion, hvd]
  | none =>
    cases hvm : s.ValidarMensaje mensaje with
    | some err => left; simp [SMSNotificador.EnviarNotificacion, hvd, hvm]
    | none => right; simp [SMSNotificador.EnviarNotificacion, hvd, hvm]

theorem mem_mapInsert_cases {α : Type} (m : List (String × α)) (k : String)
    (v : α) (p : String × α) (h : p ∈ mapInsert m k v) :
    p ∈ m ∨ p = (k, v) := by
  unfold mapInsert at h
  split at h
  · rcases List.mem_map.mp h with ⟨q, hq, he⟩
    by_cases hqk : q.1 = k
    · right
      rw [← he, if_pos hqk]
    · left
      rw [← he, if_neg hqk]
      exact hq
  · rcases List.mem_append.mp h with h | h
    · left; exact h
    · right; simpa using h

/-- C6: records are created in state `Pendiente`; within a single `Send`
call the record only moves `Pendiente → Enviada` or `Pendiente → Fallida`
(the terminal record differs from the pending one only in `Estado` and
`Error`); `Entregada` is never produced by any operation (it is preserved
as absent); and no existing record is ever removed from the store — every
entry under a key other than the generated id is untouched, and every
stored key remains present. -/
theorem registros_ciclo_de_vida (e : EmailNotificador) (s : SMSNotificador)
    (destinatario mensaje id : String) (fail : Bool) :
    (EmailNotificador.registroInicial id destinatario mensaje).estado =
        .pendiente ∧
    (SMSNotificador.registroInicial id destinatario mensaje).estado =
        .pendiente ∧
    EmailNotificador.registroFinal id destinatario mensaje fail =
      { EmailNotificador.registroInicial id destinatario mensaje with
          estado := if fail then .fallida else .enviada,
          error := if fail then "Servidor SMTP no disponible" else "" } ∧
    SMSNotificador.registroFinal id destinatario mensaje fail =
      { SMSNotificador.registroInicial id destinatario mensaje with
          estado := if fail then .fallida else .enviada,
          error := if fail then "Número no válido" else "" } ∧
    (∀ k v, k ≠ id → mapLookup k e.registros = some v →
      mapLookup k
        (e.EnviarNotificacion destinatario mensaje id fail).1.registros =
        some v) ∧
    (∀ k v, k ≠ id → mapLookup k s.registros = some v →
      mapLookup k
        (s.EnviarNotificacion destinatario mensaje id fail).1.registros =
        some v) ∧
    (∀ k, (mapLookup k e.registros).isSome = true →
      (mapLookup k
        (e.EnviarNotificacion destinatario mensaje id fail).1.registros).isSome =
        true) ∧
    (∀ k, (mapLookup k s.registros).isSome = true →
      (mapLookup k
        (s.EnviarNotificacion destinatario mensaje id fail).1.registros).isSome =
        true) ∧
    ((∀ p ∈ e.registros, p.2.estado ≠ .entregada) →
      ∀ p ∈ (e.EnviarNotificacion destinatario mensaje id fail).1.registros,
        p.2.estado ≠ .entregada) ∧
    ((∀ p ∈ s.registros, p.2.estado ≠ .entregada) →
      ∀ p ∈ (s.EnviarNotificacion destinatario mensaje id fail).1.registros,
        p.2.estado ≠ .entregada) := by
  refine ⟨rfl, rfl, ?_, ?_, ?_, ?_, ?_, ?_, ?_, ?_⟩
  · cases fail <;>
      simp [EmailNotificador.registroFinal, EmailNotificador.registroInicial]
  · cases fail <;>
      simp [SMSNotificador.registroFinal, SMSNotificador.registroInicial]
  · intro k v hk hv
    rcases email_registros_cases e destinatario mensaje id fail with hc | hc
    · rw [hc]; exact hv
    · rw [hc, mapLookup_mapInsert_ne _ _ _ _ hk]; exact hv
  · intro k v hk hv
    rcases sms_registros_cases s destinatario mensaje id fail with hc | hc
    · rw [hc]; exact hv
    · rw [hc, mapLookup_mapInsert_ne _ _ _ _ hk]; exact hv
  · intro k hv
    rcases email_registros_cases e destinatario mensaje id fail with hc | hc
    · rw [hc]; exact hv
    · rw [hc]
      by_cases hk : k = id
      · subst hk; simp [mapLookup_mapInsert_self]
      · rw [mapLookup_mapInsert_ne _ _ _ _ hk]; exact hv
  · intro k hv
    rcases sms_registros_cases s destinatario mensaje id fail with hc | hc
    · rw [hc]; exact hv
    · rw [hc]
      by_cases hk : k = id
      · subst hk; simp [mapLookup_mapInsert_self]
      · rw [mapLookup_mapInsert_ne _ _ _ _ hk]; exact hv
  · intro hall p hp
    rcases email_registros_cases e destinatario mensaje id fail with hc | hc
    · rw [hc] at hp; exact hall p hp
    · rw [hc] at hp
      rcases mem_mapInsert_cases _ _ _ _ hp with hp | hp
      · exact hall p hp
      · rw [hp]
        cases fail <;>
          simp [EmailNotificador.registroFinal,
            EmailNotificador.registroInicial]
  · intro hall p hp
    rcases sms_registros_cases s destinatario mensaje id fail with hc | hc
    · rw [hc] at hp; exact hall p hp
    · rw [hc] at hp
      rcases mem_mapInsert_cases _ _ _ _ hp with hp | hp
      · exact hall p hp
      · rw [hp]
        cases fail <;>
          simp [SMSNotificador.registroFinal, SMSNotificador.registroInicial]

/-- C6 witness: a store holding one record under key `"a"` keeps it after a
send that generates the distinct id `"id1"`. -/
theorem registros_ciclo_de_vida_witness :
    mapLookup "a"
      (({ NuevoEmailNotificador "smtp" 587 "u" "p" with
          registros :=
            [("a", EmailNotificador.registroInicial "a" "x@y.z" "m")] }
        : EmailNotificador).EnviarNotificacion
          "x@y.z" "hola" "id1" false).1.registros =
      some (EmailNotificador.registroInicial "a" "x@y.z" "m") :=
  (registros_ciclo_de_vida
    { NuevoEmailNotificador "smtp" 587 "u" "p" with
        registros := [("a", EmailNotificador.registroInicial "a" "x@y.z" "m")] }
    (NuevoSMSNotificador "k" "prov") "x@y.z" "hola" "id1" false).2.2.2.2.1
    "a" (EmailNotificador.registroInicial "a" "x@y.z" "m")
    (by decide) (by decide)

/-- C7: after a `Send` call that passed internal validation and created the
record under the generated id, `ObtenerEstado` on that id succeeds and
returns exactly the terminal state recorded during the send (`enviada` or
`fallida`). -/
theorem obtenerEstado_ida_y_vuelta (e : EmailNotificador) (s : SMSNotificador)
    (destinatario mensaje id : String) (fail : Bool) :
    (e.ValidarDestinatario destinatario = none →
     e.ValidarMensaje mensaje = none →
     (e.EnviarNotificacion destinatario mensaje id fail).1.ObtenerEstado id =
       .ok ((EmailNotificador.registroFinal id destinatario mensaje
         fail).estado.toStr) ∧
     ((EmailNotificador.registroFinal id destinatario mensaje fail).estado =
        .enviada ∨
      (EmailNotificador.registroFinal id destinatario mensaje fail).estado =
        .fallida)) ∧
    (s.ValidarDestinatario destinatario = none →
     s.ValidarMensaje mensaje = none →
     (s.EnviarNotificacion destinatario mensaje id fail).1.ObtenerEstado id =
       .ok ((SMSNotificador.registroFinal id destinatario mensaje
         fail).estado.toStr) ∧
     ((SMSNotificador.registroFinal id destinatario mensaje fail).estado =
        .enviada ∨
      (SMSNotificador.registroFinal id destinatario mensaje fail).estado =
        .fallida)) := by
  constructor
  · intro hd hm
    constructor
    · rw [EmailNotificador.ObtenerEstado]
      have hr : (e.EnviarNotificacion destinatario mensaje id fail).1.registros =
          mapInsert e.registros id
            (EmailNotificador.registroFinal id destinatario mensaje fail) := by
        simp [EmailNotificador.EnviarNotificacion, hd, hm]
      rw [hr, mapLookup_mapInsert_self]
    · cases fail <;>
        simp [EmailNotificador.registroFinal, EmailNotificador.registroInicial]
  · intro hd hm
    constructor
    · rw [SMSNotificador.ObtenerEstado]
      have hr : (s.EnviarNotificacion destinatario mensaje id fail).1.registros =
          mapInsert s.registros id
            (SMSNotificador.registroFinal id destinatario mensaje fail) := by
        simp [SMSNotificador.EnviarNotificacion, hd, hm]
      rw [hr, mapLookup_mapInsert_self]
    · cases fail <;>
        simp [SMSNotificador.registroFinal, SMSNotificador.registroInicial]

/-- C7 witness: a failed email send is looked up as `"fallida"`. -/
theorem obtenerEstado_ida_y_vuelta_witness :
    ((NuevoEmailNotificador "smtp" 587 "u" "p").EnviarNotificacion
        "a@b.c" "hola" "id1" true).1.ObtenerEstado "id1" =
      .ok ((EmailNotificador.registroFinal "id1" "a@b.c" "hola"
        true).estado.toStr) :=
  ((obtenerEstado_ida_y_vuelta (NuevoEmailNotificador "smtp" 587 "u" "p")
      (NuevoSMSNotificador "k" "prov") "a@b.c" "hola" "id1" true).1
    (by decide) (by decide)).1

theorem estadisticas_email_fold (rs : RegistroStore) :
    ∀ (stats : List (String × Nat)) (t a f pnd : Nat),
      mapLookup "total" stats = some t →
      mapLookup "enviadas" stats = some a →
      mapLookup "fallidas" stats = some f →
      mapLookup "pendientes" stats = some pnd →
      mapLookup "total" (rs.foldl pasoEstadisticaEmail stats) =
        some (t + rs.length) ∧
      mapLookup "enviadas" (rs.foldl pasoEstadisticaEmail stats) =
        some (a + rs.countP (fun p => p.2.estado = .enviada)) ∧
      mapLookup "fallidas" (rs.foldl pasoEstadisticaEmail stats) =
        some (f + rs.countP (fun p => p.2.estado = .fallida)) ∧
      mapLookup "pendientes" (rs.foldl pasoEstadisticaEmail stats) =
        some (pnd + rs.countP (fun p => p.2.estado = .pendiente)) := by
  induction rs with
  | nil =>
    intro stats t a f pnd ht ha hf hp
    simp [ht, ha, hf, hp]
  | cons r rs ih =>
    intro stats t a f pnd ht ha hf hp
    rw [List.foldl_cons]
    cases hre : r.2.estado with
    | enviada =>
      have step : pasoEstadisticaEmail stats r =
          mapInsert (mapInsert stats "total" (t + 1)) "enviadas" (a + 1) := by
        simp only [pasoEstadisticaEmail, hre, ht, Option.getD_some]
        rw [mapLookup_mapInsert_ne _ _ _ _
          (by decide : ("enviadas" : String) ≠ "total"), ha]
        rfl
      rw [step]
      obtain ⟨g1, g2, g3, g4⟩ := ih (mapInsert (mapInsert stats "total" (t + 1)) "enviadas" (a + 1))
        (t + 1) (a + 1) f pnd
        (by rw [mapLookup_mapInsert_ne _ _ _ _
              (by decide : ("total" : String) ≠ "enviadas")]
            exact mapLookup_mapInsert_self _ _ _)
        (mapLookup_mapInsert_self _ _ _)
        (by rw [mapLookup_mapInsert_ne _ _ _ _
              (by decide : ("fallidas" : String) ≠ "enviadas"),
              mapLookup_mapInsert_ne _ _ _ _
              (by decide : ("fallidas" : String) ≠ "total")]
            exact hf)
        (by rw [mapLookup_mapInsert_ne _ _ _ _
              (by decide : ("pendientes" : String) ≠ "enviadas"),
              mapLookup_mapInsert_ne _ _ _ _
              (by decide : ("pendientes" : String) ≠ "total")]
            exact hp)
      refine ⟨?_, ?_, ?_, ?_⟩
      · rw [g1]; congr 1; simp; omega
      · rw [g2]; congr 1; rw [List.countP_cons]; simp [hre]; omega
      · rw [g3]; congr 1; rw [List.countP_cons]; simp [hre]
      · rw [g4]; congr 1; rw [List.countP_cons]; simp [hre]
    | fallida =>
      have step : pasoEstadisticaEmail stats r =
          mapInsert (mapInsert stats "total" (t + 1)) "fallidas" (f + 1) := by
        simp only [pasoEstadisticaEmail, hre, ht, Option.getD_some]
        rw [mapLookup_mapInsert_ne _ _ _ _
          (by decide : ("fallidas" : String) ≠ "total"), hf]
        rfl
      rw [step]
      obtain ⟨g1, g2, g3, g4⟩ := ih (mapInsert (mapInsert stats "total" (t + 1)) "fallidas" (f + 1))
        (t + 1) a (f + 1) pnd
        (by rw [mapLookup_mapInsert_ne _ _ _ _
              (by decide : ("total" : String) ≠ "fallidas")]
            exact mapLookup_mapInsert_self _ _ _)
        (by rw [mapLookup_mapInsert_ne _ _ _ _
              (by decide : ("enviadas" : String) ≠ "fallidas"),
              mapLookup_mapInsert_ne _ _ _ _
              (by decide : ("enviadas" : String) ≠ "total")]
            exact ha)
        (mapLookup_mapInsert_self _ _ _)
        (by rw [mapLookup_mapInsert_ne _ _ _ _
              (by decide : ("pendientes" : String) ≠ "fallidas"),
              mapLookup_mapInsert_ne _ _ _ _
              (by decide : ("pendientes" : String) ≠ "total")]
            exact hp)
      refine ⟨?_, ?_, ?_, ?_⟩
      · rw [g1]; congr 1; simp; omega
      · rw [g2]; congr 1; rw [List.countP_cons]; simp [hre]
      · rw [g3]; congr 1; rw [List.countP_cons]; simp [hre]; omega
      · rw [g4]; congr 1; rw [List.countP_cons]; simp [hre]
    | pendiente =>
      have step : pasoEstadisticaEmail stats r =
          mapInsert (mapInsert stats "total" (t + 1)) "pendientes"
            (pnd + 1) := by
        simp only [pasoEstadisticaEmail, hre, ht, Option.getD_some]
        rw [mapLookup_mapInsert_ne _ _ _ _
          (by decide : ("pendientes" : String) ≠ "total"), hp]
        rfl
      rw [step]
      obtain ⟨g1, g2, g3, g4⟩ := ih (mapInsert (mapInsert stats "total" (t + 1)) "pendientes" (pnd + 1))
        (t + 1) a f (pnd + 1)
        (by rw [mapLookup_mapInsert_ne _ _ _ _
              (by decide : ("total" : String) ≠ "pendientes")]
            exact mapLookup_mapInsert_self _ _ _)
        (by rw [mapLookup_mapInsert_ne _ _ _ _
              (by decide : ("enviadas" : String) ≠ "pendientes"),
              mapLookup_mapInsert_ne _ _ _ _
              (by decide : ("enviadas" : String) ≠ "total")]
            exact ha)
        (by rw [mapLookup_mapInsert_ne _ _ _ _
              (by decide : ("fallidas" : String) ≠ "pendientes"),
              mapLookup_mapInsert_ne _ _ _ _
              (by decide : ("fallidas" : String) ≠ "total")]
            exact hf)
        (mapLookup_mapInsert_self _ _ _)
      refine ⟨?_, ?_, ?_, ?_⟩
      · rw [g1]; congr 1; simp; omega
      · rw [g2]; congr 1; rw [List.countP_cons]; simp [hre]
      · rw [g3]; congr 1; rw [List.countP_cons]; simp [hre]
      · rw [g4]; congr 1; rw [List.countP_cons]; simp [hre]; omega
    | entregada =>
      have step : pasoEstadisticaEmail stats r =
          mapInsert stats "total" (t + 1) := by
        simp only [pasoEstadisticaEmail, hre, ht, Option.getD_some]
      rw [step]
      obtain ⟨g1, g2, g3, g4⟩ := ih (mapInsert stats "total" (t + 1)) (t + 1) a f pnd
        (mapLookup_mapInsert_self _ _ _)
        (by rw [mapLookup_mapInsert_ne _ _ _ _
              (by decide : ("enviadas" : String) ≠ "total")]
            exact ha)
        (by rw [mapLookup_mapInsert_ne _ _ _ _
              (by decide : ("fallidas" : String) ≠ "total")]
            exact hf)
        (by rw [mapLookup_mapInsert_ne _ _ _ _
              (by decide : ("pendientes" : String) ≠ "total")]
            exact hp)
      refine ⟨?_, ?_, ?_, ?_⟩
      · rw [g1]; congr 1; simp; omega
      · rw [g2]; congr 1; rw [List.countP_cons]; simp [hre]
      · rw [g3]; congr 1; rw [List.countP_cons]; simp [hre]
      · rw [g4]; congr 1; rw [List.countP_cons]; simp [hre]

theorem estadisticas_sms_fold (rs : RegistroStore) :
    ∀ (stats : List (String × Nat)) (t a f pnd : Nat),
      mapLookup "total" stats = some t →
      mapLookup "enviados" stats = some a →
      mapLookup "fallidos" stats = some f →
      mapLookup "pendientes" stats = some pnd →
      mapLookup "total" (rs.foldl pasoEstadisticaSMS stats) =
        some (t + rs.length) ∧
      mapLookup "enviados" (rs.foldl pasoEstadisticaSMS stats) =
        some (a + rs.countP (fun p => p.2.estado = .enviada)) ∧
      mapLookup "fallidos" (rs.foldl pasoEstadisticaSMS stats) =
        some (f + rs.countP (fun p => p.2.estado = .fallida)) ∧
      mapLookup "pendientes" (rs.foldl pasoEstadisticaSMS stats) =
        some (pnd + rs.countP (fun p => p.2.estado = .pendiente)) := by
  induction rs with
  | nil =>
    intro stats t a f pnd ht ha hf hp
    simp [ht, ha, hf, hp]
  | cons r rs ih =>
    intro stats t a f pnd ht ha hf hp
    rw [List.foldl_cons]
    cases hre : r.2.estado with
    | enviada =>
      have step : pasoEstadisticaSMS stats r =
          mapInsert (mapInsert stats "total" (t + 1)) "enviados" (a + 1) := by
        simp only [pasoEstadisticaSMS, hre, ht, Option.getD_some]
        rw [mapLookup_mapInsert_ne _ _ _ _
          (by decide : ("enviados" : String) ≠ "total"), ha]
        rfl
      rw [step]
      obtain ⟨g1, g2, g3, g4⟩ := ih (mapInsert (mapInsert stats "total" (t + 1)) "enviados" (a + 1))
        (t + 1) (a + 1) f pnd
        (by rw [mapLookup_mapInsert_ne _ _ _ _
              (by decide : ("total" : String) ≠ "enviados")]
            exact mapLookup_mapInsert_self _ _ _)
        (mapLookup_mapInsert_self _ _ _)
        (by rw [mapLookup_mapInsert_ne _ _ _ _
              (by decide : ("fallidos" : String) ≠ "enviados"),
              mapLookup_mapInsert_ne _ _ _ _
              (by decide : ("fallidos" : String) ≠ "total")]
            exact hf)
        (by rw [mapLookup_mapInsert_ne _ _ _ _
              (by decide : ("pendientes" : String) ≠ "enviados"),
              mapLookup_mapInsert_ne _ _ _ _
              (by decide : ("pendientes" : String) ≠ "total")]
            exact hp)
      refine ⟨?_, ?_, ?_, ?_⟩
      · rw [g1]; congr 1; simp; omega
      · rw [g2]; congr 1; rw [List.countP_cons]; simp [hre]; omega
      · rw [g3]; congr 1; rw [List.countP_cons]; simp [hre]
      · rw [g4]; congr 1; rw [List.countP_cons]; simp [hre]
    | fallida =>
      have step : pasoEstadisticaSMS stats r =
          mapInsert (mapInsert stats "total" (t + 1)) "fallidos" (f + 1) := by
        simp only [pasoEstadisticaSMS, hre, ht, Option.getD_some]
        rw [mapLookup_mapInsert_ne _ _ _ _
          (by decide : ("fallidos" : String) ≠ "total"), hf]
        rfl
      rw [step]
      obtain ⟨g1, g2, g3, g4⟩ := ih (mapInsert (mapInsert stats "total" (t + 1)) "fallidos" (f + 1))
        (t + 1) a (f + 1) pnd
        (by rw [mapLookup_mapInsert_ne _ _ _ _
              (by decide : ("total" : String) ≠ "fallidos")]
            exact mapLookup_mapInsert_self _ _ _)
        (by rw [mapLookup_mapInsert_ne _ _ _ _
              (by decide : ("enviados" : String) ≠ "fallidos"),
              mapLookup_mapInsert_ne _ _ _ _
              (by decide : ("enviados" : String) ≠ "total")]
            exact ha)
        (mapLookup_mapInsert_self _ _ _)
        (by rw [mapLookup_mapInsert_ne _ _ _ _
              (by decide : ("pendientes" : String) ≠ "fallidos"),
              mapLookup_mapInsert_ne _ _ _ _
              (by decide : ("pendientes" : String) ≠ "total")]
            exact hp)
      refine ⟨?_, ?_, ?_, ?_⟩
      · rw [g1]; congr 1; simp; omega
      · rw [g2]; congr 1; rw [List.countP_cons]; simp [hre]
      · rw [g3]; congr 1; rw [List.countP_cons]; simp [hre]; omega
      · rw [g4]; congr 1; rw [List.countP_cons]; simp [hre]
    | pendiente =>
      have step : pasoEstadisticaSMS stats r =
          mapInsert (mapInsert stats "total" (t + 1)) "pendientes"
            (pnd + 1) := by
        simp only [pasoEstadisticaSMS, hre, ht, Option.getD_some]
        rw [mapLookup_mapInsert_ne _ _ _ _
          (by decide : ("pendientes" : String) ≠ "total"), hp]
        rfl
      rw [step]
      obtain ⟨g1, g2, g3, g4⟩ := ih (mapInsert (mapInsert stats "total" (t + 1)) "pendientes" (pnd + 1))
        (t + 1) a f (pnd + 1)
        (by rw [mapLookup_mapInsert_ne _ _ _ _
              (by decide : ("total" : String) ≠ "pendientes")]
            exact mapLookup_mapInsert_self _ _ _)
        (by rw [mapLookup_mapInsert_ne _ _ _ _
              (by decide : ("enviados" : String) ≠ "pendientes"),
              mapLookup_mapInsert_ne _ _ _ _
              (by decide : ("enviados" : String) ≠ "total")]
            exact ha)
        (by rw [mapLookup_mapInsert_ne _ _ _ _
              (by decide : ("fallidos" : String) ≠ "pendientes"),
              mapLookup_mapInsert_ne _ _ _ _
              (by decide : ("fallidos" : String) ≠ "total")]
            exact hf)
        (mapLookup_mapInsert_self _ _ _)
      refine ⟨?_, ?_, ?_, ?_⟩
      · rw [g1]; congr 1; simp; omega
      · rw [g2]; congr 1; rw [List.countP_cons]; simp [hre]
      · rw [g3]; congr 1; rw [List.countP_cons]; simp [hre]
      · rw [g4]; congr 1; rw [List.countP_cons]; simp [hre]; omega
    | entregada =>
      have step : pasoEstadisticaSMS stats r =
          mapInsert stats "total" (t + 1) := by
        simp only [pasoEstadisticaSMS, hre, ht, Option.getD_some]
      rw [step]
      obtain ⟨g1, g2, g3, g4⟩ := ih (mapInsert stats "total" (t + 1)) (t + 1) a f pnd
        (mapLookup_mapInsert_self _ _ _)
        (by rw [mapLookup_mapInsert_ne _ _ _ _
              (by decide : ("enviados" : String) ≠ "total")]
            exact ha)
        (by rw [mapLookup_mapInsert_ne _ _ _ _
              (by decide : ("fallidos" : String) ≠ "total")]
            exact hf)
        (by rw [mapLookup_mapInsert_ne _ _ _ _
              (by decide : ("pendientes" : String) ≠ "total")]
            exact hp)
      refine ⟨?_, ?_, ?_, ?_⟩
      · rw [g1]; congr 1; simp; omega
      · rw [g2]; congr 1; rw [List.countP_cons]; simp [hre]
      · rw [g3]; congr 1; rw [List.countP_cons]; simp [hre]
      · rw [g4]; congr 1; rw [List.countP_cons]; simp [hre]

/-- C8: `ObtenerEstadisticas` is a pure function of the record store — two
calls with no intervening send return the same mapping — and it is computed
by scanning the store and counting records by state: `"total"` is the store
size and each state counter is the number of records in that state. -/
theorem obtenerEstadisticas_idempotente_y_cuenta (e : EmailNotificador)
    (s : SMSNotificador) :
    e.ObtenerEstadisticas = e.ObtenerEstadisticas ∧
    mapLookup "total" e.ObtenerEstadisticas = some e.registros.length ∧
    mapLookup "enviadas" e.ObtenerEstadisticas =
      some (e.registros.countP fun p => p.2.estado = .enviada) ∧
    mapLookup "fallidas" e.ObtenerEstadisticas =
      some (e.registros.countP fun p => p.2.estado = .fallida) ∧
    mapLookup "pendientes" e.ObtenerEstadisticas =
      some (e.registros.countP fun p => p.2.estado = .pendiente) ∧
    s.ObtenerEstadisticas = s.ObtenerEstadisticas ∧
    mapLookup "total" s.ObtenerEstadisticas = some s.registros.length ∧
    mapLookup "enviados" s.ObtenerEstadisticas =
      some (s.registros.countP fun p => p.2.estado = .enviada) ∧
    mapLookup "fallidos" s.ObtenerEstadisticas =
      some (s.registros.countP fun p => p.2.estado = .fallida) ∧
    mapLookup "pendientes" s.ObtenerEstadisticas =
      some (s.registros.countP fun p => p.2.estado = .pendiente) := by
  obtain ⟨g1, g2, g3, g4⟩ := estadisticas_email_fold e.registros
    [("total", 0), ("enviadas", 0), ("fallidas", 0), ("pendientes", 0)]
    0 0 0 0 (by decide) (by decide) (by decide) (by decide)
  obtain ⟨h1, h2, h3, h4⟩ := estadisticas_sms_fold s.registros
    [("total", 0), ("enviados", 0), ("fallidos", 0), ("pendientes", 0)]
    0 0 0 0 (by decide) (by decide) (by decide) (by decide)
  refine ⟨rfl, ?_, ?_, ?_, ?_, rfl, ?_, ?_, ?_, ?_⟩ <;>
    simp only [EmailNotificador.ObtenerEstadisticas,
      SMSNotificador.ObtenerEstadisticas]
  · simpa using g1
  · simpa using g2
  · simpa using g3
  · simpa using g4
  · simpa using h1
  · simpa using h2
  · simpa using h3
  · simpa using h4

theorem email_enviar_dest_invalido (e : EmailNotificador)
    (destinatario mensaje id : String) (fail : Bool) (err : String)
    (hd : e.ValidarDestinatario destinatario = some err) :
    Notificador.enviar (.email e) destinatario mensaje id fail =
      (.email e, some err) := by
  simp [Notificador.enviar, EmailNotificador.EnviarNotificacion, hd]

theorem email_enviar_mensaje_invalido (e : EmailNotificador)
    (destinatario mensaje id : String) (fail : Bool) (err : String)
    (hd : e.ValidarDestinatario destinatario = none)
    (hm : e.ValidarMensaje mensaje = some err) :
    Notificador.enviar (.email e) destinatario mensaje id fail =
      (.email e, some err) := by
  simp [Notificador.enviar, EmailNotificador.EnviarNotificacion, hd, hm]

theorem sms_enviar_dest_invalido (s : SMSNotificador)
    (destinatario mensaje id : String) (fail : Bool) (err : String)
    (hd : s.ValidarDestinatario destinatario = some err) :
    Notificador.enviar (.sms s) destinatario mensaje id fail =
      (.sms s, some err) := by
  simp [Notificador.enviar, SMSNotificador.EnviarNotificacion, hd]

theorem sms_enviar_mensaje_invalido (s : SMSNotificador)
    (destinatario mensaje id : String) (fail : Bool) (err : String)
    (hd : s.ValidarDestinatario destinatario = none)
    (hm : s.ValidarMensaje mensaje = some err) :
    Notificador.enviar (.sms s) destinatario mensaje id fail =
      (.sms s, some err) := by
  simp [Notificador.enviar, SMSNotificador.EnviarNotificacion, hd, hm]

/-- C9: the email and SMS backends validate the destination and then the
message inside `EnviarNotificacion` itself, before creating any record —
so even `EnviarATodos` (which performs no external validation) records the
validation error for such a backend on invalid input, and the backend (hence
its record store) is left unchanged. -/
theorem enviarATodos_validacion_interna (sn : ServicioNotificaciones)
    (destinatario mensaje : String) (env : List (String × Bool)) (i j : Nat)
    (e : EmailNotificador) (s : SMSNotificador)
    (he : sn.notificadores[i]? = some (.email e))
    (hs : sn.notificadores[j]? = some (.sms s)) :
    (∀ err, e.ValidarDestinatario destinatario = some err →
      (enviarATodosAux destinatario mensaje sn.notificadores env)[i]? =
        some (Notificador.email e, "*main.EmailNotificador", some err) ∧
      (sn.EnviarATodos destinatario mensaje env).1.notificadores[i]? =
        some (Notificador.email e)) ∧
    (∀ err, e.ValidarDestinatario destinatario = none →
      e.ValidarMensaje mensaje = some err →
      (enviarATodosAux destinatario mensaje sn.notificadores env)[i]? =
        some (Notificador.email e, "*main.EmailNotificador", some err) ∧
      (sn.EnviarATodos destinatario mensaje env).1.notificadores[i]? =
        some (Notificador.email e)) ∧
    (∀ err, s.ValidarDestinatario destinatario = some err →
      (enviarATodosAux destinatario mensaje sn.notificadores env)[j]? =
        some (Notificador.sms s, "*main.SMSNotificador", some err) ∧
      (sn.EnviarATodos destinatario mensaje env).1.notificadores[j]? =
        some (Notificador.sms s)) ∧
    (∀ err, s.ValidarDestinatario destinatario = none →
      s.ValidarMensaje mensaje = some err →
      (enviarATodosAux destinatario mensaje sn.notificadores env)[j]? =
        some (Notificador.sms s, "*main.SMSNotificador", some err) ∧
      (sn.EnviarATodos destinatario mensaje env).1.notificadores[j]? =
        some (Notificador.sms s)) := by
  have hauxi := enviarATodosAux_getElem destinatario mensaje
    sn.notificadores env i
  rw [he] at hauxi
  simp only [Option.map_some'] at hauxi
  have hfsti : (sn.EnviarATodos destinatario mensaje env).1.notificadores[i]? =
      some ((Notificador.enviar (.email e) destinatario mensaje
        (envAt env i).1 (envAt env i).2).1) := by
    rw [EnviarATodos_fst, List.getElem?_map, hauxi]
    rfl
  have hauxj := enviarATodosAux_getElem destinatario mensaje
    sn.notificadores env j
  rw [hs] at hauxj
  simp only [Option.map_some'] at hauxj
  have hfstj : (sn.EnviarATodos destinatario mensaje env).1.notificadores[j]? =
      some ((Notificador.enviar (.sms s) destinatario mensaje
        (envAt env j).1 (envAt env j).2).1) := by
    rw [EnviarATodos_fst, List.getElem?_map, hauxj]
    rfl
  refine ⟨?_, ?_, ?_, ?_⟩
  · intro err hd
    rw [email_enviar_dest_invalido e destinatario mensaje _ _ err hd]
      at hauxi hfsti
    exact ⟨hauxi, hfsti⟩
  · intro err hd hm
    rw [email_enviar_mensaje_invalido e destinatario mensaje _ _ err hd hm]
      at hauxi hfsti
    exact ⟨hauxi, hfsti⟩
  · intro err hd
    rw [sms_enviar_dest_invalido s destinatario mensaje _ _ err hd]
      at hauxj hfstj
    exact ⟨hauxj, hfstj⟩
  · intro err hd hm
    rw [sms_enviar_mensaje_invalido s destinatario mensaje _ _ err hd hm]
      at hauxj hfstj
    exact ⟨hauxj, hfstj⟩

/-- C9 witness: a destination without `@` makes `EnviarATodos` record the
email backend's own validation error and leave the backend unchanged. -/
theorem enviarATodos_validacion_interna_witness :
    (enviarATodosAux "bad" "hola"
      [Notificador.email (NuevoEmailNotificador "smtp" 587 "u" "p"),
       Notificador.sms (NuevoSMSNotificador "k" "prov")]
      [("id1", false), ("id2", false)])[0]? =
      some (Notificador.email (NuevoEmailNotificador "smtp" 587 "u" "p"),
        "*main.EmailNotificador",
        some "email inválido: debe contener @") :=
  ((enviarATodos_validacion_interna
      { notificadores :=
          [Notificador.email (NuevoEmailNotificador "smtp" 587 "u" "p"),
           Notificador.sms (NuevoSMSNotificador "k" "prov")],
        logger := none }
      "bad" "hola" [("id1", false), ("id2", false)] 0 1
      (NuevoEmailNotificador "smtp" 587 "u" "p")
      (NuevoSMSNotificador "k" "prov") (by rfl) (by rfl)).1
    "email inválido: debe contener @" (by decide)).1

/-- C10: when backends share a concrete type, `EnviarATodos` still invokes
`EnviarNotificacion` once per registration in registration order (the `i`-th
loop entry is the `i`-th registered backend's own send, keyed by its type
name), while the returned map holds a single entry per type name — its keys
are duplicate-free — whose value is the outcome written by the last loop
iteration with that key. -/
theorem EnviarATodos_ultima_escritura_gana (sn : ServicioNotificaciones)
    (destinatario mensaje : String) (env : List (String × Bool)) :
    ((sn.EnviarATodos destinatario mensaje env).2.map Prod.fst).Nodup ∧
    (∀ k, mapLookup k (sn.EnviarATodos destinatario mensaje env).2 =
      lookupLast
        ((enviarATodosAux destinatario mensaje sn.notificadores env).map
          fun p => p.2) k) ∧
    (∀ i : Nat,
      (enviarATodosAux destinatario mensaje sn.notificadores env)[i]? =
        sn.notificadores[i]?.map (fun n =>
          ((n.enviar destinatario mensaje (envAt env i).1 (envAt env i).2).1,
           n.tipoNombre,
           (n.enviar destinatario mensaje (envAt env i).1
             (envAt env i).2).2))) := by
  refine ⟨?_, ?_, ?_⟩
  · rw [EnviarATodos_snd]
    exact nodup_keys_buildResultMap _
  · intro k
    rw [EnviarATodos_snd]
    exact mapLookup_buildResultMap _ k
  · intro i
    exact enviarATodosAux_getElem destinatario mensaje sn.notificadores env i
